import Mathlib

/-!
Verification of the CHIP-8 interpreter core (`src/processor.rs`) against its
natural-language specification.  The CPU state and every operation the claims
touch are shallowly embedded: Rust `u8`/`u16` values become `Nat` with explicit
`% 256` / masking where the source casts or wraps, fixed-size arrays become
total functions out of `Nat` updated pointwise, and code paths that panic in
Rust (`panic!`, `unimplemented!`, out-of-bounds indexing, debug-mode integer
overflow of `-=` on an unsigned zero) are modelled by `Option`, returning
`none`.
-/

namespace Chip8

/-- Pointwise update of a `Nat`-indexed store, mirroring `arr[a] = b`. -/
def upd (f : Nat → Nat) (a b : Nat) : Nat → Nat :=
  fun x => if x = a then b else f x

/-- Pointwise update of the 2-dimensional framebuffer, mirroring `gfx[r][c] = v`. -/
def upd2 (g : Nat → Nat → Nat) (r c v : Nat) : Nat → Nat → Nat :=
  fun r' c' => if r' = r ∧ c' = c then v else g r' c'

/-- The interpreter state, one field per field of `struct CPU` in
`src/processor.rs` (the `[u8; 4096]`, `[u8; 16]`, `[usize; 16]`, `[bool; 16]`
and `[[u8; 64]; 32]` arrays become total functions; `gfx` is indexed row then
column as in the source). -/
structure CPU where
  opcode : Nat
  memory : Nat → Nat
  v : Nat → Nat
  i : Nat
  pc : Nat
  delay_timer : Nat
  sound_timer : Nat
  stack : Nat → Nat
  sp : Nat
  key : Nat → Bool
  gfx : Nat → Nat → Nat
  draw_flag : Bool
  keypad : Nat → Bool
  keypad_waiting : Bool
  keypad_register : Nat

/-- `fn op_x`: the source text is `(self.opcode & 0x0F00 >> 8) as usize`.
Rust's `>>` binds tighter than `&`, so this parses as
`self.opcode & (0x0F00 >> 8)`; Lean's `>>>` likewise binds tighter than `&&&`,
so the expression below is the same mask-the-constant-first computation. -/
def op_x (c : CPU) : Nat :=
  c.opcode &&& 0x0F00 >>> 8

/-- `fn op_y`: the source text is `(self.opcode & 0x00F0 >> 4) as usize`,
parsing as `self.opcode & (0x00F0 >> 4)` by the same precedence. -/
def op_y (c : CPU) : Nat :=
  c.opcode &&& 0x00F0 >>> 4

/-- Modelled from the spec: the contents of `font::FONT_SET` (module `font` is
declared in `main.rs` but its file is not part of the sources given); §3 of the
spec fixes it as the built-in character font, 16 glyphs of 5 bytes each (80
bytes) written from address 0 upward.  Only its length (80 ≤ 0x200) matters to
any claim. -/
def FONT_SET : List Nat :=
  [0xF0, 0x90, 0x90, 0x90, 0xF0,
   0x20, 0x60, 0x20, 0x20, 0x70,
   0xF0, 0x10, 0xF0, 0x80, 0xF0,
   0xF0, 0x10, 0xF0, 0x10, 0xF0,
   0x90, 0x90, 0xF0, 0x10, 0x10,
   0xF0, 0x80, 0xF0, 0x10, 0xF0,
   0xF0, 0x80, 0xF0, 0x90, 0xF0,
   0xF0, 0x10, 0x20, 0x40, 0x40,
   0xF0, 0x90, 0xF0, 0x90, 0xF0,
   0xF0, 0x90, 0xF0, 0x10, 0xF0,
   0xF0, 0x90, 0xF0, 0x90, 0x90,
   0xE0, 0x90, 0xE0, 0x90, 0xE0,
   0xF0, 0x80, 0x80, 0x80, 0xF0,
   0xE0, 0x90, 0x90, 0x90, 0xE0,
   0xF0, 0x80, 0xF0, 0x80, 0xF0,
   0xF0, 0x80, 0xF0, 0x80, 0x80]

/-- The `for i in 0..FONT_SET.len() { ram[i] = FONT_SET[i] }` loop of
`fn init_ram`, one recursive step per iteration. -/
def initRamLoop (ram : Nat → Nat) : List Nat → Nat → (Nat → Nat)
  | [], _ => ram
  | b :: rest, idx => initRamLoop (upd ram idx b) rest (idx + 1)

/-- `fn init_ram`: a zero-filled 4096-byte array with the font copied to the
front (the model is a total function; addresses ≥ 4096 also read 0, which no
code path reaches). -/
def init_ram : Nat → Nat :=
  initRamLoop (fun _ => 0) FONT_SET 0

/-- `fn new`. -/
def CPU.new : CPU :=
  { memory := init_ram
    v := fun _ => 0
    i := 0
    pc := 0x200
    delay_timer := 0
    sound_timer := 0
    stack := fun _ => 0
    sp := 0
    key := fun _ => false
    gfx := fun _ _ => 0
    draw_flag := false
    keypad := fun _ => false
    keypad_waiting := false
    keypad_register := 0
    opcode := 0 }

/-- `fn get_opcode`: big-endian fetch of two bytes at `pc`.  Rust panics when
`pc + 1` is outside the 4096-byte array; that panic is `none` here. -/
def get_opcode (c : CPU) : Option CPU :=
  if c.pc + 1 < 4096 then
    some { c with opcode := (c.memory c.pc) <<< 8 ||| c.memory (c.pc + 1) }
  else none

/-- The body of the inner `for bit in 0..8` loop of the `0xD000` (draw) arm of
`fn run_opcode`.  `rx` is the register selector computed before the loops and
`row` the wrapped row computed at the head of the enclosing byte iteration; the
inner `let x` rebinding of the source is the `col` `let` here (note the source
computes the column from `byte`, the row counter, not from `bit`).  The
collision bit is OR-ed into `v[0xF]` from the pixel value read before that
pixel is XOR-ed. -/
def drawBit (rx row byte bit : Nat) (c : CPU) : CPU :=
  let col := (c.v rx + byte) % 64
  let color := (c.memory (c.i + byte)) >>> (7 - bit) &&& 1
  let c1 := { c with v := upd c.v 0x0F (c.v 0x0F ||| (color &&& c.gfx row col)) }
  { c1 with gfx := upd2 c1.gfx row col (c1.gfx row col ^^^ color) }

/-- One iteration of the outer `for byte in 0..n` loop of the draw arm: the
shadowing `let y = (self.v[y] as usize + byte) % 32` then the 8 bit steps. -/
def drawByte (rx ry : Nat) (c : CPU) (byte : Nat) : CPU :=
  let row := (c.v ry + byte) % 32
  (List.range 8).foldl (fun c bit => drawBit rx row byte bit c) c

/-- `fn run_opcode`: one dispatch on the fetched opcode, mutating the state.
`rand` stands for the draw of `rng.gen_range(0, 255)` in the `0xC000` arm
(a value in `[0, 255)`), passed explicitly.  Arms whose Rust body is
`panic!`/`unimplemented!`, and index arithmetic that panics (stack overflow on
call, `sp -= 1` underflow or out-of-range stack read on return), give `none`. -/
def run_opcode (c : CPU) (rand : Nat) : Option CPU :=
  match c.opcode &&& 0xF000 with
  | 0x0000 =>
    match c.opcode &&& 0x000F with
    | 0x0000 =>
      -- 00E0: the nested loops zero every in-range framebuffer cell
      some { c with gfx := fun r col => if r < 32 ∧ col < 64 then 0 else c.gfx r col,
                    draw_flag := true, pc := c.pc + 2 }
    | 0x000E =>
      -- 00EE: return; the source does `self.pc += self.stack[self.sp]`
      if c.sp = 0 ∨ 16 < c.sp then none
      else some { c with sp := c.sp - 1, pc := c.pc + c.stack (c.sp - 1) }
    | _ => none
  | 0x1000 =>
    some { c with pc := c.opcode &&& 0x0FFF }
  | 0x2000 =>
    -- 2NNN: call
    if c.sp < 16 then
      some { c with stack := upd c.stack c.sp (c.pc + 2), sp := c.sp + 1,
                    pc := c.opcode &&& 0x0FFF }
    else none
  | 0x3000 =>
    -- 3XNN: `self.opcode as u8 & 0x00FF`
    if c.v (op_x c) = (c.opcode % 256) &&& 0x00FF then
      some { c with pc := c.pc + 4 }
    else some { c with pc := c.pc + 2 }
  | 0x6000 =>
    some { c with v := upd c.v (op_x c) ((c.opcode % 256) &&& 0x00FF),
                  pc := c.pc + 2 }
  | 0x7000 =>
    -- 7XNN: u16 addition then `as u8`
    let nn := c.opcode &&& 0x00FF
    let x := op_x c
    let vx := c.v x
    let result := vx + nn
    some { c with v := upd c.v x (result % 256), pc := c.pc + 2 }
  | 0x8000 =>
    let x := op_x c
    let y := op_y c
    match c.opcode &&& 0x000F with
    | 0x0000 =>
      some { c with v := upd c.v x (c.v y), pc := c.pc + 2 }
    | 0x0001 =>
      some { c with v := upd c.v x (c.v x ||| c.v y), pc := c.pc + 2 }
    | 0x0002 =>
      some { c with v := upd c.v x (c.v x &&& c.v y), pc := c.pc + 2 }
    | 0x0003 =>
      some { c with v := upd c.v x (c.v x ^^^ c.v y), pc := c.pc + 2 }
    | 0x0004 =>
      -- the source indexes `v[x >> 4]`, `v[x >> 8]`, `v[y >> 4]`; its
      -- `self.v[x >> 8] += self.v[y >> 4]` wraps mod 256 (release semantics)
      let carry := if 0xFF - c.v (x >>> 8) < c.v (x >>> 4) then 1 else 0
      let c1 := { c with v := upd c.v 0xF carry }
      let sum := (c1.v (x >>> 8) + c1.v (y >>> 4)) % 256
      some { c1 with v := upd c1.v (x >>> 8) sum, pc := c1.pc + 2 }
    | 0x0005 =>
      -- 8XY5: VF from strict `>` then `wrapping_sub`
      let c1 := { c with v := upd c.v 0x0F (if c.v y < c.v x then 1 else 0) }
      some { c1 with v := upd c1.v x ((c1.v x + 256 - c1.v y) % 256),
                     pc := c1.pc + 2 }
    | 0x0006 =>
      let c1 := { c with v := upd c.v 0x0F (c.v x &&& 1) }
      some { c1 with v := upd c1.v x (c1.v x >>> 1), pc := c1.pc + 2 }
    | 0x0007 =>
      let c1 := { c with v := upd c.v 0x0F (if c.v x < c.v y then 1 else 0) }
      some { c1 with v := upd c1.v x ((c1.v y + 256 - c1.v x) % 256),
                     pc := c1.pc + 2 }
    | 0x000E =>
      -- 8XYE: `self.v[0x0f] = self.v[x] & 0b10000000`
      let c1 := { c with v := upd c.v 0x0F (c.v x &&& 0b10000000) }
      some { c1 with v := upd c1.v x ((c1.v x <<< 1) % 256), pc := c1.pc + 2 }
    | _ => none
  | 0x9000 =>
    some { c with pc := c.pc + (if c.v (op_x c) ≠ c.v (op_y c) then 4 else 2) }
  | 0xA000 =>
    -- ANNN: `self.i = (self.opcode & 0x0FFF) as u8`
    some { c with i := (c.opcode &&& 0x0FFF) % 256, pc := c.pc + 2 }
  | 0xB000 =>
    some { c with pc := c.v 0 + (c.opcode &&& 0x0FFF) }
  | 0xC000 =>
    let x := op_x c
    let nn := c.opcode &&& 0x00FF
    some { c with v := upd c.v x ((rand &&& nn) % 256), pc := c.pc + 2 }
  | 0xD000 =>
    let c := { c with draw_flag := true }
    let x := op_x c
    let y := c.opcode &&& 0x00F0 >>> 4
    let n := c.opcode &&& 0x000F
    let c := (List.range n).foldl (drawByte x y) c
    some { c with pc := c.pc + 2 }
  | 0xF000 =>
    let x := op_x c
    match c.opcode &&& 0x00FF with
    | 0x0007 =>
      some { c with v := upd c.v x c.delay_timer, pc := c.pc + 2 }
    | 0x000A => none
    | 0x0015 =>
      some { c with delay_timer := c.v x, pc := c.pc + 2 }
    | 0x0018 => none
    | 0x001E =>
      some { c with pc := c.pc + 2 }
    | 0x0029 => none
    | 0x0033 => none
    | 0x0055 => none
    | 0x0065 => none
    | _ => none
  | _ => none

/-- The ascending scan `for i in 0..keypad.len() { if keypad[i] { ... break } }`
of `fn cycle`'s waiting branch: the first pressed index among
`start, start+1, ...` within `fuel` steps. -/
def findPressed (keypad : Nat → Bool) : Nat → Nat → Option Nat
  | _, 0 => none
  | start, fuel + 1 =>
    if keypad start then some start else findPressed keypad (start + 1) fuel

/-- `fn cycle`: the waiting branch scans the keypad snapshot and at most clears
the latch and stores the key; the running branch decrements nonzero timers,
fetches, and executes.  The out-of-bounds register write that Rust would panic
on (`keypad_register ≥ 16`, unreachable in the program since the field is never
assigned) is `none`. -/
def cycle (c : CPU) (keypad : Nat → Bool) (rand : Nat) : Option CPU :=
  if c.keypad_waiting then
    match findPressed keypad 0 16 with
    | none => some c
    | some k =>
      if c.keypad_register < 16 then
        some { c with keypad_waiting := false,
                      v := upd c.v c.keypad_register (k % 256) }
      else none
  else
    let c := if 0 < c.delay_timer then { c with delay_timer := c.delay_timer - 1 } else c
    let c := if 0 < c.sound_timer then { c with sound_timer := c.sound_timer - 1 } else c
    match get_opcode c with
    | none => none
    | some c => run_opcode c rand

/-- The `for (i, &byte) in buffer.iter().enumerate()` loop of `fn load`: write
each buffer byte at `0x200 + i`, stopping at the array bound. -/
def loadLoop (mem : Nat → Nat) : List Nat → Nat → (Nat → Nat)
  | [], _ => mem
  | byte :: rest, idx =>
    if 0x200 + idx < 4096 then loadLoop (upd mem (0x200 + idx) byte) rest (idx + 1)
    else mem

/-- The `let mut buffer = [0u8; 3584]` filled by `f.read(&mut buffer)`: the
first 3584 bytes of the input, zero-padded to exactly 3584 entries. -/
def mkBuffer (bytes : List Nat) : List Nat :=
  (List.range 3584).map (fun j => bytes.getD j 0)

/-- `fn load`, as invoked on the freshly constructed CPU: the file's byte
sequence is the `bytes` argument. -/
def load (mem : Nat → Nat) (bytes : List Nat) : Nat → Nat :=
  loadLoop mem (mkBuffer bytes) 0

/-! ### Lemmas about the loader loop -/

/-- Addresses below the loop's write window are untouched. -/
lemma loadLoop_eq_of_lt (buffer : List Nat) :
    ∀ (mem : Nat → Nat) (idx addr : Nat), addr < 0x200 + idx →
      loadLoop mem buffer idx addr = mem addr := by
  induction buffer with
  | nil => intro mem idx addr _; rfl
  | cons b rest ih =>
    intro mem idx addr h
    unfold loadLoop
    by_cases hb : 0x200 + idx < 4096
    · rw [if_pos hb, ih _ (idx + 1) addr (by omega)]
      exact if_neg (by omega)
    · rw [if_neg hb]

/-- Addresses at or beyond the loop's write window are untouched. -/
lemma loadLoop_eq_of_ge (buffer : List Nat) :
    ∀ (mem : Nat → Nat) (idx addr : Nat), 0x200 + idx + buffer.length ≤ addr →
      loadLoop mem buffer idx addr = mem addr := by
  induction buffer with
  | nil => intro mem idx addr _; rfl
  | cons b rest ih =>
    intro mem idx addr h
    unfold loadLoop
    by_cases hb : 0x200 + idx < 4096
    · rw [if_pos hb, ih _ (idx + 1) addr (by simp at h ⊢; omega)]
      exact if_neg (by simp at h; omega)
    · rw [if_neg hb]

/-- An in-window, in-bounds address receives the corresponding buffer byte. -/
lemma loadLoop_get (buffer : List Nat) :
    ∀ (mem : Nat → Nat) (idx j : Nat), j < buffer.length → 0x200 + idx + j < 4096 →
      loadLoop mem buffer idx (0x200 + idx + j) = buffer.getD j 0 := by
  induction buffer with
  | nil => intro mem idx j hj _; simp at hj
  | cons b rest ih =>
    intro mem idx j hj hb
    unfold loadLoop
    rw [if_pos (by omega)]
    cases j with
    | zero =>
      rw [loadLoop_eq_of_lt rest _ (idx + 1) _ (by omega)]
      simp [upd]
    | succ j' =>
      have harith : 0x200 + idx + (j' + 1) = 0x200 + (idx + 1) + j' := by omega
      rw [harith, ih _ (idx + 1) j' (by simp at hj; omega) (by omega)]
      simp

lemma mkBuffer_length (bytes : List Nat) : (mkBuffer bytes).length = 3584 := by
  simp [mkBuffer]

lemma mkBuffer_getD (bytes : List Nat) (j : Nat) (h : j < 3584) :
    (mkBuffer bytes).getD j 0 = bytes.getD j 0 := by
  rw [List.getD_eq_getElem?_getD, List.getD_eq_getElem?_getD]
  simp [mkBuffer, List.getElem?_range, h, List.getD]

/-! ### Claim theorems -/

/-- C1: the claim says `op_x` returns bits 8–11 (`(opcode >> 8) & 0xF`) and
`op_y` bits 4–7 (`(opcode >> 4) & 0xF`) of every opcode.  It fails: Rust's `>>`
binds tighter than `&`, so both extractors compute `opcode & 0xF`, the LAST
nibble.  At opcode `0x6123` the claim demands `x = 1` and `y = 2`, but the code
yields 3 for both. -/
theorem c1_field_extractors_return_last_nibble :
    op_x { CPU.new with opcode := 0x6123 } = 3 ∧
    op_y { CPU.new with opcode := 0x6123 } = 3 ∧
    0x6123 >>> 8 &&& 0xF = 1 ∧ 0x6123 >>> 4 &&& 0xF = 2 := by
  decide

/-- C2: the claim says executing `ANNN` sets the index register to the full
12-bit address `NNN`.  It fails: the field `i` is declared `u8`, and the arm
casts `(opcode & 0x0FFF) as u8`; executing opcode `0xA123` leaves `i = 0x23`,
not `0x123` (the pc does advance by 2). -/
theorem c2_annn_truncates_index_register :
    ∃ c', run_opcode { CPU.new with opcode := 0xA123 } 0 = some c' ∧
      c'.i = 0x23 ∧ c'.i ≠ 0x123 ∧ c'.pc = 0x202 := by
  exact ⟨_, rfl, by decide, by decide, by decide⟩

/-- The concrete machine for C3: a fresh CPU whose program is `2300` (call
0x300) at `0x200`, with `00EE` (return) at `0x300`. -/
def callRetState : CPU :=
  { CPU.new with
      memory := upd (upd (upd (upd init_ram 0x200 0x23) 0x201 0x00) 0x300 0x00)
                  0x301 0xEE }

/-- C3: the claim says a call `2NNN` followed by a return `00EE` leaves the pc
at the call site plus 2.  It fails: the return arm reads
`self.pc += self.stack[self.sp]` (`+=`, not `=`), so after calling `0x300` from
`0x200` and returning, the pc is `0x300 + 0x202 = 0x502`, not `0x202`. -/
theorem c3_call_then_return_adds_instead_of_sets_pc :
    ∃ c1 c2 : CPU,
      cycle callRetState (fun _ => false) 0 = some c1 ∧
      cycle c1 (fun _ => false) 0 = some c2 ∧
      c1.pc = 0x300 ∧ c1.sp = 1 ∧ c2.pc = 0x502 ∧ c2.pc ≠ 0x202 := by
  refine ⟨_, _, rfl, rfl, ?_, ?_, ?_, ?_⟩ <;> decide

/-- The concrete machine for C4's `8XY4` part: opcode `0x8124` with
`V0 = 7`, `V1 = 1`, `V2 = 2`. -/
def addRegsState : CPU :=
  { CPU.new with opcode := 0x8124, v := upd (upd (upd (fun _ => 0) 0 7) 1 1) 2 2 }

/-- C4: the claim says `8XY4` stores `(Vx + Vy) mod 256` into register x with
VF the carry, and `7XNN` adds `NN` into register x.  Both fail: the extractors
give `x = y = opcode & 0xF`, and the `8XY4` arm further indexes `v[x >> 8]` and
`v[y >> 4]` (both register 0), so `0x8124` doubles `V0` (7 becomes 14) and
leaves `V1`, `V2` untouched, where the claim demands `V1 = 1 + 2 = 3`; and
`0x7105` adds 5 into `V5`, not `V1`. -/
theorem c4_add_family_targets_wrong_registers :
    (∃ c', run_opcode addRegsState 0 = some c' ∧
      c'.v 0 = 14 ∧ c'.v 1 = 1 ∧ c'.v 2 = 2 ∧ c'.v 1 ≠ 3) ∧
    (∃ c', run_opcode { CPU.new with opcode := 0x7105 } 0 = some c' ∧
      c'.v 1 = 0 ∧ c'.v 5 = 5) := by
  exact ⟨⟨_, rfl, by decide, by decide, by decide, by decide⟩,
         ⟨_, rfl, by decide, by decide⟩⟩

/-- C6: the claim says executing `FX0A` enters the waiting-for-key state
targeting register x.  It fails: the `0x000A` arm of the `0xF000` family is
`unimplemented!(...)` — it panics and never touches `keypad_waiting` (no code
path in the program ever sets the latch). -/
theorem c6_fx0a_is_unimplemented :
    run_opcode { CPU.new with opcode := 0xF10A } 0 = none := by
  rfl

/-- C7: the claim says `8XY5` sets `VF = 1` iff `Vx ≥ Vy` and `8XY7` sets
`VF = 1` iff `Vy ≥ Vx`, so VF must be 1 when the operands are equal.  It
fails: both arms use strict `>`, so with every register 0 (equal operands)
both `0x8005` and `0x8007` leave `VF = 0` where the claim demands 1. -/
theorem c7_sub_family_vf_zero_on_equal_operands :
    (∃ c', run_opcode { CPU.new with opcode := 0x8005 } 0 = some c' ∧
      c'.v 0xF = 0) ∧
    (∃ c', run_opcode { CPU.new with opcode := 0x8007 } 0 = some c' ∧
      c'.v 0xF = 0) := by
  exact ⟨⟨_, rfl, by decide⟩, ⟨_, rfl, by decide⟩⟩

/-- The concrete machine for C8's `8XYE` part: opcode `0x800E` with `V14 = 0x80`. -/
def shlState : CPU :=
  { CPU.new with opcode := 0x800E, v := upd (fun _ => 0) 14 0x80 }

/-- The concrete machine for C8's `8XY6` part: opcode `0x8126` with `V6 = 3`. -/
def shrState : CPU :=
  { CPU.new with opcode := 0x8126, v := upd (fun _ => 0) 6 3 }

/-- C8: the claim says `8XYE` puts the pre-shift most-significant bit of Vx
into VF as 0 or 1.  It fails: the arm stores `v[x] & 0b10000000`, so with
`V14 = 0x80`, opcode `0x800E` (for which the buggy extractor gives `x = 14`)
leaves `VF = 128`, not 1.  The `8XY6` half also targets the wrong register:
`0x8126` shifts `V6`, leaving `V1` untouched. -/
theorem c8_shl_stores_unnormalized_msb_in_vf :
    (∃ c', run_opcode shlState 0 = some c' ∧ c'.v 0xF = 128 ∧ c'.v 0xF ≠ 1) ∧
    (∃ c', run_opcode shrState 0 = some c' ∧ c'.v 6 = 1 ∧ c'.v 1 = 0) := by
  exact ⟨⟨_, rfl, by decide, by decide⟩, ⟨_, rfl, by decide, by decide⟩⟩

/-- The concrete machine for C5: opcode `0xD001` (one-row sprite at `(V1, V1)`,
both 0, on an all-blank screen) with sprite byte `0xF0` at `memory[I] = memory[0]`. -/
def drawState : CPU :=
  { CPU.new with opcode := 0xD001, memory := upd init_ram 0 0xF0 }

/-- C5: the claim says `DXYN` XORs the sprite rows into the framebuffer at
column `(Vx + bit) % 64` and sets `VF = 1` iff some pixel flipped 1 to 0.  It
fails: the inner loop computes the column from `byte` (the row counter), so all
8 bits of a row land on one framebuffer cell, and the collision flag is OR-ed
with the cell's running value.  Drawing the single row `0xF0` at the blank
origin must, per the claim, light pixels (0,0)–(0,3) and report `VF = 0`; the
code instead leaves the whole row dark and reports `VF = 1` (the dirty flag and
pc advance do hold). -/
theorem c5_draw_column_uses_row_counter :
    ∃ c', run_opcode drawState 0 = some c' ∧
      c'.gfx 0 0 = 0 ∧ c'.gfx 0 1 = 0 ∧ c'.gfx 0 2 = 0 ∧ c'.gfx 0 3 = 0 ∧
      c'.v 0xF = 1 ∧ c'.draw_flag = true ∧ c'.pc = 0x202 := by
  refine ⟨_, rfl, ?_, ?_, ?_, ?_, ?_, ?_, ?_⟩ <;> decide

/-- C9: program loading copies the input bytes one per address from `0x200`
up, never writes below `0x200` or above `0xFFF`, silently drops bytes past
capacity, and leaves every address at or above `0x200` beyond the loaded bytes
equal to 0.  Confirmed: the 3584-byte read buffer exactly fills `0x200..0xFFF`,
so indices `i < 3584` receive `bytes[i]` (or the buffer's 0-padding), and
addresses outside `[0x200, 0xFFF]` keep whatever any initial memory held. -/
theorem c9_load_bounds_and_zero_fill (bytes : List Nat) :
    (∀ i, i < bytes.length → i < 3584 →
      load init_ram bytes (0x200 + i) = bytes.getD i 0) ∧
    (∀ (mem : Nat → Nat) (addr : Nat), addr < 0x200 → load mem bytes addr = mem addr) ∧
    (∀ (mem : Nat → Nat) (addr : Nat), 0xFFF < addr → load mem bytes addr = mem addr) ∧
    (∀ addr, 0x200 ≤ addr → addr < 4096 → bytes.length ≤ addr - 0x200 →
      load init_ram bytes addr = 0) := by
  refine ⟨?_, ?_, ?_, ?_⟩
  · intro i _ hi
    rw [load, loadLoop_get _ _ 0 i (by rw [mkBuffer_length]; omega) (by omega)]
    exact mkBuffer_getD bytes i hi
  · intro mem addr h
    exact loadLoop_eq_of_lt _ _ 0 addr (by omega)
  · intro mem addr h
    exact loadLoop_eq_of_ge _ _ 0 addr (by rw [mkBuffer_length]; omega)
  · intro addr h1 h2 h3
    have haddr : addr = 0x200 + 0 + (addr - 0x200) := by omega
    rw [load, haddr, loadLoop_get _ _ 0 _ (by rw [mkBuffer_length]; omega) (by omega)]
    rw [mkBuffer_getD bytes _ (by omega)]
    exact List.getD_eq_default _ _ (by omega)

/-- Witness for C9 at the two-byte program `[0xAB, 0xCD]`: byte 0 lands at
`0x200`, addresses `0x1FF` and `0x1000` are untouched, and address `0x500`
(beyond the program) reads 0. -/
theorem c9_load_bounds_and_zero_fill_witness :
    load init_ram [0xAB, 0xCD] (0x200 + 0) = [(0xAB : Nat), 0xCD].getD 0 0 ∧
    load init_ram [0xAB, 0xCD] 0x1FF = init_ram 0x1FF ∧
    load init_ram [0xAB, 0xCD] 0x1000 = init_ram 0x1000 ∧
    load init_ram [0xAB, 0xCD] 0x500 = 0 := by
  refine ⟨?_, ?_, ?_, ?_⟩
  · exact (c9_load_bounds_and_zero_fill [0xAB, 0xCD]).1 0 (by decide) (by decide)
  · exact (c9_load_bounds_and_zero_fill [0xAB, 0xCD]).2.1 init_ram 0x1FF (by decide)
  · exact (c9_load_bounds_and_zero_fill [0xAB, 0xCD]).2.2.1 init_ram 0x1000 (by decide)
  · exact (c9_load_bounds_and_zero_fill [0xAB, 0xCD]).2.2.2 0x500 (by decide)
      (by decide) (by decide)

/-- C10: while the waiting-for-key latch is set, a cycle leaves the timers,
pc, memory, framebuffer, stack, index register and every register other than
the wait's target unchanged; at most it clears the latch and writes the
pressed key into the target register.  Confirmed for every state whose target
register index is in range (it is 0 in every reachable state, the field being
assigned nowhere): in particular the timers do not decrement during a wait. -/
theorem c10_waiting_cycle_frame (c : CPU) (keypad : Nat → Bool) (rand : Nat)
    (hw : c.keypad_waiting = true) (hr : c.keypad_register < 16) :
    ∃ c', cycle c keypad rand = some c' ∧
      c'.delay_timer = c.delay_timer ∧ c'.sound_timer = c.sound_timer ∧
      c'.pc = c.pc ∧ c'.memory = c.memory ∧ c'.gfx = c.gfx ∧
      c'.i = c.i ∧ c'.stack = c.stack ∧ c'.sp = c.sp ∧
      c'.opcode = c.opcode ∧ c'.draw_flag = c.draw_flag ∧
      c'.keypad_register = c.keypad_register ∧
      (∀ r, r ≠ c.keypad_register → c'.v r = c.v r) := by
  unfold cycle
  rw [hw]
  cases hfp : findPressed keypad 0 16 with
  | none =>
    exact ⟨c, by simp, rfl, rfl, rfl, rfl, rfl, rfl, rfl, rfl, rfl, rfl, rfl,
           fun r _ => rfl⟩
  | some k =>
    refine ⟨{ c with keypad_waiting := false, v := upd c.v c.keypad_register (k % 256) },
            by simp [hr], rfl, rfl, rfl, rfl, rfl, rfl, rfl, rfl, rfl, rfl, rfl,
            fun r hr' => ?_⟩
    simp [upd, hr']

/-- Witness for C10: a fresh CPU with the latch set and key 5 pressed. -/
theorem c10_waiting_cycle_frame_witness :
    ∃ c', cycle { CPU.new with keypad_waiting := true } (fun k => k == 5) 0 = some c' ∧
      c'.delay_timer = CPU.new.delay_timer ∧ c'.sound_timer = CPU.new.sound_timer ∧
      c'.pc = CPU.new.pc ∧ c'.memory = CPU.new.memory ∧ c'.gfx = CPU.new.gfx ∧
      c'.i = CPU.new.i ∧ c'.stack = CPU.new.stack ∧ c'.sp = CPU.new.sp ∧
      c'.opcode = CPU.new.opcode ∧ c'.draw_flag = CPU.new.draw_flag ∧
      c'.keypad_register = CPU.new.keypad_register ∧
      (∀ r, r ≠ CPU.new.keypad_register → c'.v r = CPU.new.v r) :=
  c10_waiting_cycle_frame { CPU.new with keypad_waiting := true }
    (fun k => k == 5) 0 rfl (by decide)

end Chip8
